import Mathlib

/-!
Shallow embedding of the jwt-implementation-express credential-and-session
service: the `user` table and the `jwt_whitelist` table become lists inside an
explicit database state, the model classes (`User`, `Whitelist`) become pure
functions over that state, and the service classes (`AuthService`,
`WhitelistService`) become `Except`-valued functions threading the state.

Conventions of the embedding:
* JavaScript strings are Lean `String`s; a falsy string is exactly `""`.
* Numeric ids and the `user_id` field are `Nat`; a falsy number is exactly `0`.
* MySQL datetimes produced by `DatetimeUtil` are modelled by the number of
  seconds they denote: `Date.now()` is a parameter `nowMs : Nat` (milliseconds)
  and the formatted `YYYY-MM-DD HH:mm:ss` string becomes
  `(nowMs + shift) / 1000`, mirroring the GMT+8 shift and the `.slice(0, 19)`
  truncation of the source.
* `bcryptjs.hash` and `bcryptjs.compare` are opaque parameters (`hash`,
  `compare`), and `jwt.sign` for the two token kinds becomes two opaque
  parameters `signAccess, signRefresh : Nat → String` of the user id.
* A thrown `Error(msg)` becomes `Except.error` of the constructor of `Err`
  named after `msg`.
-/

namespace JwtAuth

/-- One row of the `user` table: id, email, full name and the stored
(password-hash) column, exactly the columns `INSERT INTO user` writes. -/
structure UserRec where
  id : Nat
  email : String
  full_name : String
  password : String
deriving Repr, DecidableEq

/-- One row of the `jwt_whitelist` table, the columns written by
`Whitelist.create`: id, user_id, refresh_token, expires_at, created_at. -/
structure WlEntry where
  id : Nat
  user_id : Nat
  refresh_token : String
  expires_at : Nat
  created_at : Nat
deriving Repr, DecidableEq

/-- The persistent state: both tables plus the auto-increment counters MySQL
keeps for their primary keys. -/
structure DB where
  users : List UserRec
  whitelist : List WlEntry
  nextUserId : Nat
  nextWlId : Nat
deriving Repr, DecidableEq

/-- The record `User.create` returns: `\x7b id, full_name, email \x7d` — it has
no password field at all. -/
structure CreatedUser where
  id : Nat
  full_name : String
  email : String
deriving Repr, DecidableEq

/-- The error messages thrown by the services, one constructor per distinct
`new Error("...")` string of the source (the spec's taxonomy renames
`ALL_FIELDS_REQUIRED` to AllFieldsRequired, `INVALID_CREDENTIALS` to
InvalidCredentials, `REFRESH_TOKEN_DOES_EXIST_FOR_THIS_USER` to
RefreshTokenNotWhitelisted, `USER_ID_DOES_NOT_BELONG_TO_ANY_ACCOUNT` to
UnknownUser, and so on). `STORAGE_FAILURE` stands for any fault the storage
layer itself raises. -/
inductive Err where
  | ALL_FIELDS_REQUIRED
  | INVALID_EMAIL_FORMAT
  | PASSWORD_TOO_SHORT
  | EMAIL_EXISTS
  | INVALID_CREDENTIALS
  | LOGOUT_FIELDS_REQUIRED
  | REFRESH_TOKEN_DOES_EXIST_FOR_THIS_USER
  | USER_ID_DOES_NOT_BELONG_TO_ANY_ACCOUNT
  | STORAGE_FAILURE (msg : String)
deriving Repr, DecidableEq

/-- The bcrypt cost used by `AuthService` (`const saltRounds = 12`). -/
def saltRounds : Nat := 12

/-- Model of `DatetimeUtil.now()`: the GMT+8-shifted instant truncated to
seconds by `.slice(0, 19)`. -/
def DatetimeUtil.now (nowMs : Nat) : Nat :=
  (nowMs + 8 * 3600 * 1000) / 1000

/-- Model of `DatetimeUtil.expiryFromDays(days)`: `Date.now()` plus
`days * 24 * 60 * 60 * 1000` ms, GMT+8-shifted, truncated to seconds. -/
def DatetimeUtil.expiryFromDays (nowMs : Nat) (days : Nat) : Nat :=
  (nowMs + days * 24 * 60 * 60 * 1000 + 8 * 3600 * 1000) / 1000

/-- Model of the JavaScript blank test `!s || s.trim() === ""`: for a string
both conditions together say every character is whitespace. -/
def isBlank (s : String) : Bool :=
  s.toList.all Char.isWhitespace

/-- The text before the first `'@'` of the list, and the remainder after it
(`none` when the list holds no `'@'`). -/
def splitAtSign : List Char → List Char × Option (List Char)
  | [] => ([], none)
  | c :: rest =>
    if c = '@' then ([], some rest)
    else
      let r := splitAtSign rest
      (c :: r.1, r.2)

/-- A character the regex classes `[^\s@]` accept: not whitespace, not `'@'`. -/
def okEmailChar (c : Char) : Bool :=
  !c.isWhitespace && c != '@'

/-- Model of `/^[^\s@]+@[^\s@]+\.[^\s@]+$/.test(email)`: exactly one `@`
(both character classes exclude it), no whitespace anywhere, nonempty local
part, and after the `@` a dot at an interior position — `[^\s@]+\.[^\s@]+`
matches exactly when some dot has nonempty text on both of its sides. -/
def emailFormatValid (email : String) : Bool :=
  match splitAtSign email.toList with
  | (localPart, some domainPart) =>
      !localPart.isEmpty && !domainPart.isEmpty &&
      localPart.all okEmailChar && domainPart.all okEmailChar &&
      ((domainPart.drop 1).dropLast).contains '.'
  | (_, none) => false

/-- Model of `User.create` (src/backend/src/models/User.js): insert the row
and return `\x7b id: result.insertId, full_name, email \x7d`, without the
password. -/
def User.create (db : DB) (email full_name password : String) :
    CreatedUser × DB :=
  let row : UserRec :=
    { id := db.nextUserId, email := email, full_name := full_name,
      password := password }
  ({ id := db.nextUserId, full_name := full_name, email := email },
   { db with users := db.users ++ [row], nextUserId := db.nextUserId + 1 })

/-- Model of `User.emailExists`: `SELECT 1 FROM user WHERE email = ? LIMIT 1`,
exact match. -/
def User.emailExists (db : DB) (email : String) : Bool :=
  db.users.any (fun u => u.email == email)

/-- Model of `User.userExistByUserId`: `SELECT 1 FROM user WHERE id = ?`. -/
def User.userExistByUserId (db : DB) (user_id : Nat) : Bool :=
  db.users.any (fun u => u.id == user_id)

/-- Model of `User.userExistByEmail`: the first row with this email, with all
columns including the password hash, or `null`. -/
def User.userExistByEmail (db : DB) (email : String) : Option UserRec :=
  db.users.find? (fun u => u.email == email)

/-- Model of `User.updateUser`: `UPDATE user SET email = ?, full_name = ?
WHERE id = ?`; returns `null` when no row matched, else the updated data. -/
def User.updateUser (db : DB) (user_id : Nat) (email full_name : String) :
    Option (Nat × String × String) × DB :=
  let users2 := db.users.map (fun u =>
    if u.id = user_id then { u with email := email, full_name := full_name }
    else u)
  if db.users.any (fun u => u.id == user_id) then
    ((user_id, email, full_name), { db with users := users2 })
  else (none, db)

/-- Model of `User.deleteUser`: `DELETE FROM user WHERE id = ?`; returns
`null` when `affectedRows` is 0, else a success marker. Note that only the
`user` table is touched — no `jwt_whitelist` row is deleted. -/
def User.deleteUser (db : DB) (user_id : Nat) : Option Bool × DB :=
  let keep := db.users.filter (fun u => !(u.id == user_id))
  if keep.length = db.users.length then (none, db)
  else (some true, { db with users := keep })

/-- Model of `Whitelist.create`: insert the row with `created_at =
DatetimeUtil.now()` and return it. -/
def Whitelist.create (db : DB) (user_id : Nat) (refresh_token : String)
    (expires_at : Nat) (nowMs : Nat) : WlEntry × DB :=
  let e : WlEntry :=
    { id := db.nextWlId, user_id := user_id, refresh_token := refresh_token,
      expires_at := expires_at, created_at := DatetimeUtil.now nowMs }
  (e, { db with whitelist := db.whitelist ++ [e], nextWlId := db.nextWlId + 1 })

/-- Model of `Whitelist.delete`: `DELETE FROM jwt_whitelist WHERE user_id = ?
AND refresh_token = ?`; the boolean is `affectedRows > 0`. -/
def Whitelist.delete (db : DB) (user_id : Nat) (refresh_token : String) :
    Bool × DB :=
  let keep := db.whitelist.filter (fun e =>
    !(e.user_id == user_id && e.refresh_token == refresh_token))
  (decide (keep.length < db.whitelist.length),
   { db with whitelist := keep })

/-- Model of `Whitelist.doesRefreshTokenExist`: `SELECT 1 FROM jwt_whitelist
WHERE user_id = ? AND refresh_token = ? LIMIT 1` — an exact-match lookup on
the composite key; `expires_at` is not consulted. -/
def Whitelist.doesRefreshTokenExist (db : DB) (user_id : Nat)
    (refresh_token : String) : Bool :=
  db.whitelist.any (fun e =>
    e.user_id == user_id && e.refresh_token == refresh_token)

/-- Model of `WhitelistService.validateInsertionData`: throws
`ALL_FIELDS_REQUIRED` when any field is falsy (`user_id = 0`,
`refresh_token = ""`, `expires_at = 0`). -/
def WhitelistService.validateInsertionData (user_id : Nat)
    (refresh_token : String) (expires_at : Nat) : Except Err Unit :=
  if user_id = 0 ∨ refresh_token = "" ∨ expires_at = 0 then
    .error .ALL_FIELDS_REQUIRED
  else .ok ()

/-- Model of `WhitelistService.insertRefreshToken`: validate, check the user
id against the Credential Store, then `Whitelist.create`. -/
def WhitelistService.insertRefreshToken (db : DB) (user_id : Nat)
    (refresh_token : String) (expires_at : Nat) (nowMs : Nat) :
    Except Err (WlEntry × DB) :=
  match WhitelistService.validateInsertionData user_id refresh_token expires_at with
  | .error e => .error e
  | .ok _ =>
    if User.userExistByUserId db user_id = false then
      .error .USER_ID_DOES_NOT_BELONG_TO_ANY_ACCOUNT
    else
      .ok (Whitelist.create db user_id refresh_token expires_at nowMs)

/-- Model of `WhitelistService.checkRefreshTokenExistence`: look the pair up;
if absent throw (the error whose source string is
`REFRESH_TOKEN_DOES_EXIST_FOR_THIS_USER`, the spec's
RefreshTokenNotWhitelisted); if present delete it. -/
def WhitelistService.checkRefreshTokenExistence (db : DB) (user_id : Nat)
    (refresh_token : String) : Except Err DB :=
  if Whitelist.doesRefreshTokenExist db user_id refresh_token then
    .ok (Whitelist.delete db user_id refresh_token).2
  else .error .REFRESH_TOKEN_DOES_EXIST_FOR_THIS_USER

/-- Model of `AuthService.validateRegistrationData`: missing/blank fields,
then email shape, then password length, in that order. -/
def AuthService.validateRegistrationData (full_name email password : String) :
    Except Err Unit :=
  if isBlank full_name ∨ isBlank email ∨ isBlank password then
    .error .ALL_FIELDS_REQUIRED
  else if emailFormatValid email = false then
    .error .INVALID_EMAIL_FORMAT
  else if password.length < 8 then
    .error .PASSWORD_TOO_SHORT
  else .ok ()

/-- Model of `AuthService.registerUser`: validate, check email uniqueness,
hash with `saltRounds`, create; `hash` stands for `bcryptjs.hash`. -/
def AuthService.registerUser (hash : Nat → String → String) (db : DB)
    (full_name email password : String) : Except Err (CreatedUser × DB) :=
  match AuthService.validateRegistrationData full_name email password with
  | .error e => .error e
  | .ok _ =>
    if User.emailExists db email then .error .EMAIL_EXISTS
    else .ok (User.create db email full_name (hash saltRounds password))

/-- Model of `AuthService.loginUser` with the whitelist-insert step abstracted
as `ins`, mirroring the sequential `await`s of the source: field check, email
lookup, `bcryptjs.compare`, mint both tokens, persist the whitelist entry
(with `expires_at = DatetimeUtil.expiryFromDays(7)`), return the tokens. No
step is wrapped in a catch, so any error of `ins` propagates. -/
def AuthService.loginUserWith (ins : DB → Nat → String → Nat → Except Err DB)
    (compare : String → String → Bool) (signAccess signRefresh : Nat → String)
    (nowMs : Nat) (db : DB) (email password : String) :
    Except Err ((String × String) × DB) :=
  if email = "" ∨ password = "" then .error .ALL_FIELDS_REQUIRED
  else
    match User.userExistByEmail db email with
    | none => .error .INVALID_CREDENTIALS
    | some user =>
      if compare password user.password = false then
        .error .INVALID_CREDENTIALS
      else
        match ins db user.id (signRefresh user.id)
            (DatetimeUtil.expiryFromDays nowMs 7) with
        | .error e => .error e
        | .ok db2 => .ok ((signAccess user.id, signRefresh user.id), db2)

/-- Model of `AuthService.loginUser` proper: the insert step is
`WhitelistService.insertRefreshToken` (whose returned row is discarded). -/
def AuthService.loginUser (compare : String → String → Bool)
    (signAccess signRefresh : Nat → String) (nowMs : Nat) (db : DB)
    (email password : String) : Except Err ((String × String) × DB) :=
  AuthService.loginUserWith
    (fun d uid rt exp =>
      match WhitelistService.insertRefreshToken d uid rt exp nowMs with
      | .error e => .error e
      | .ok r => .ok r.2)
    compare signAccess signRefresh nowMs db email password

/-- Model of `AuthService.logoutUser`: field check (falsy user_id or token),
then `checkRefreshTokenExistence` (which deletes on success), then echo the
pair back. -/
def AuthService.logoutUser (db : DB) (user_id : Nat) (refresh_token : String) :
    Except Err ((Nat × String) × DB) :=
  if refresh_token = "" ∨ user_id = 0 then .error .LOGOUT_FIELDS_REQUIRED
  else
    match WhitelistService.checkRefreshTokenExistence db user_id refresh_token with
    | .error e => .error e
    | .ok db2 => .ok ((user_id, refresh_token), db2)

/-- The cross-component invariant of the spec: every whitelist row's user_id
has a matching user row. -/
def whitelistIntegrity (db : DB) : Bool :=
  db.whitelist.all (fun e => db.users.any (fun u => u.id == e.user_id))

/-! ## Helper lemmas -/

theorem expiryFromDays_seven (nowMs : Nat) :
    DatetimeUtil.expiryFromDays nowMs 7 = DatetimeUtil.now nowMs + 7 * 24 * 60 * 60 := by
  unfold DatetimeUtil.expiryFromDays DatetimeUtil.now
  omega

theorem doesRefreshTokenExist_of_mem {db : DB} {e : WlEntry}
    (hmem : e ∈ db.whitelist) :
    Whitelist.doesRefreshTokenExist db e.user_id e.refresh_token = true := by
  simp only [Whitelist.doesRefreshTokenExist, List.any_eq_true]
  exact ⟨e, hmem, by simp⟩

theorem doesRefreshTokenExist_after_delete (db : DB) (uid : Nat) (rt : String) :
    Whitelist.doesRefreshTokenExist (Whitelist.delete db uid rt).2 uid rt = false := by
  simp only [Whitelist.doesRefreshTokenExist, Whitelist.delete, List.any_eq_false]
  intro x hx
  rw [List.mem_filter] at hx
  cases hb : (x.user_id == uid && x.refresh_token == rt) with
  | false => simp [hb]
  | true => rw [hb] at hx; simp at hx

theorem logoutUser_found (db : DB) (uid : Nat) (rt : String)
    (h0 : uid ≠ 0) (hrt : rt ≠ "")
    (hex : Whitelist.doesRefreshTokenExist db uid rt = true) :
    AuthService.logoutUser db uid rt =
      .ok ((uid, rt), (Whitelist.delete db uid rt).2) := by
  simp [AuthService.logoutUser, WhitelistService.checkRefreshTokenExistence,
    h0, hrt, hex]

theorem logoutUser_notfound (db : DB) (uid : Nat) (rt : String)
    (h0 : uid ≠ 0) (hrt : rt ≠ "")
    (hex : Whitelist.doesRefreshTokenExist db uid rt = false) :
    AuthService.logoutUser db uid rt =
      .error .REFRESH_TOKEN_DOES_EXIST_FOR_THIS_USER := by
  simp [AuthService.logoutUser, WhitelistService.checkRefreshTokenExistence,
    h0, hrt, hex]

theorem insertRefreshToken_ok {db : DB} {uid : Nat} {rt : String}
    {exp nowMs : Nat} {e : WlEntry} {db1 : DB}
    (h : WhitelistService.insertRefreshToken db uid rt exp nowMs = .ok (e, db1)) :
    uid ≠ 0 ∧ rt ≠ "" ∧ exp ≠ 0 ∧ User.userExistByUserId db uid = true ∧
    e = { id := db.nextWlId, user_id := uid, refresh_token := rt,
          expires_at := exp, created_at := DatetimeUtil.now nowMs } ∧
    db1 = { db with whitelist := db.whitelist ++ [e],
                    nextWlId := db.nextWlId + 1 } := by
  unfold WhitelistService.insertRefreshToken at h
  split at h
  · simp at h
  · rename_i val heq
    have hfields : uid ≠ 0 ∧ rt ≠ "" ∧ exp ≠ 0 := by
      unfold WhitelistService.validateInsertionData at heq
      by_cases hc : uid = 0 ∨ rt = "" ∨ exp = 0
      · rw [if_pos hc] at heq
        simp at heq
      · push_neg at hc
        exact hc
    split at h
    · simp at h
    · rename_i hexists
      rw [Except.ok.injEq, Prod.mk.injEq] at h
      refine ⟨hfields.1, hfields.2.1, hfields.2.2, ?_, ?_, ?_⟩
      · cases huid : User.userExistByUserId db uid
        · exact absurd huid hexists
        · rfl
      · exact h.1.symm
      · rw [← h.2, ← h.1]
        rfl

theorem loginUserWith_ok {ins : DB → Nat → String → Nat → Except Err DB}
    {compare : String → String → Bool} {sa sr : Nat → String}
    {nowMs : Nat} {db : DB} {email pw atk rtk : String} {db1 : DB}
    (h : AuthService.loginUserWith ins compare sa sr nowMs db email pw =
      .ok ((atk, rtk), db1)) :
    email ≠ "" ∧ pw ≠ "" ∧ ∃ u, User.userExistByEmail db email = some u ∧
      compare pw u.password = true ∧ atk = sa u.id ∧ rtk = sr u.id ∧
      ins db u.id (sr u.id) (DatetimeUtil.expiryFromDays nowMs 7) = .ok db1 := by
  unfold AuthService.loginUserWith at h
  split at h
  · simp at h
  · rename_i hfields
    push_neg at hfields
    split at h
    · simp at h
    · rename_i u hu
      split at h
      · simp at h
      · rename_i hcmp
        split at h
        · simp at h
        · rename_i db2 hins
          rw [Except.ok.injEq, Prod.mk.injEq, Prod.mk.injEq] at h
          refine ⟨hfields.1, hfields.2, u, hu, ?_, h.1.1.symm, h.1.2.symm, ?_⟩
          · cases hc : compare pw u.password
            · exact absurd hc hcmp
            · rfl
          · rw [← h.2]
            exact hins

theorem loginUser_ok {compare : String → String → Bool} {sa sr : Nat → String}
    {nowMs : Nat} {db : DB} {email pw atk rtk : String} {db1 : DB}
    (h : AuthService.loginUser compare sa sr nowMs db email pw =
      .ok ((atk, rtk), db1)) :
    ∃ u e, User.userExistByEmail db email = some u ∧
      atk = sa u.id ∧ rtk = sr u.id ∧ u.id ≠ 0 ∧ rtk ≠ "" ∧
      e = { id := db.nextWlId, user_id := u.id, refresh_token := rtk,
            expires_at := DatetimeUtil.expiryFromDays nowMs 7,
            created_at := DatetimeUtil.now nowMs } ∧
      db1 = { db with whitelist := db.whitelist ++ [e],
                      nextWlId := db.nextWlId + 1 } := by
  obtain ⟨-, -, u, hu, -, hatk, hrtk, hins⟩ := loginUserWith_ok h
  revert hins
  cases hcall : WhitelistService.insertRefreshToken db u.id (sr u.id)
      (DatetimeUtil.expiryFromDays nowMs 7) nowMs with
  | error e => intro hins; simp at hins
  | ok r =>
    intro hins
    rw [Except.ok.injEq] at hins
    obtain ⟨h0, hne, -, -, he, hdb⟩ :
        u.id ≠ 0 ∧ sr u.id ≠ "" ∧ _ ∧ _ ∧ _ ∧ _ := by
      have : WhitelistService.insertRefreshToken db u.id (sr u.id)
          (DatetimeUtil.expiryFromDays nowMs 7) nowMs = .ok (r.1, r.2) := by
        rw [hcall]
      exact insertRefreshToken_ok this
    exact ⟨u, r.1, hu, hatk, hrtk, h0, hrtk ▸ hne, hrtk ▸ he, hins ▸ hdb⟩

theorem registerUser_ok {hash : Nat → String → String} {db : DB}
    {fn em pw : String} {u : CreatedUser} {db1 : DB}
    (h : AuthService.registerUser hash db fn em pw = .ok (u, db1)) :
    isBlank fn = false ∧ isBlank em = false ∧ isBlank pw = false ∧
    emailFormatValid em = true ∧ 8 ≤ pw.length ∧
    User.emailExists db em = false ∧
    u = { id := db.nextUserId, full_name := fn, email := em } ∧
    db1 = { db with
      users := db.users ++
        [{ id := db.nextUserId, email := em,
           full_name := fn, password := hash saltRounds pw }],
      nextUserId := db.nextUserId + 1 } := by
  unfold AuthService.registerUser at h
  split at h
  · simp at h
  · rename_i val heq
    unfold AuthService.validateRegistrationData at heq
    split at heq
    · simp at heq
    · rename_i hblank
      split at heq
      · simp at heq
      · rename_i hfmt
        split at heq
        · simp at heq
        · rename_i hlen
          simp only [not_or, Bool.not_eq_true] at hblank
          rw [Bool.not_eq_false] at hfmt
          rw [Nat.not_lt] at hlen
          split at h
          · simp at h
          · rename_i hmail
            rw [Bool.not_eq_true] at hmail
            unfold User.create at h
            rw [Except.ok.injEq, Prod.mk.injEq] at h
            exact ⟨hblank.1, hblank.2.1, hblank.2.2, hfmt, hlen, hmail,
              h.1.symm, h.2.symm⟩

theorem integrity_of_subset {db db1 : DB} (hu : db1.users = db.users)
    (hw : ∀ x ∈ db1.whitelist, x ∈ db.whitelist)
    (hint : whitelistIntegrity db = true) : whitelistIntegrity db1 = true := by
  unfold whitelistIntegrity at hint ⊢
  rw [List.all_eq_true] at hint ⊢
  intro x hx
  rw [hu]
  exact hint x (hw x hx)

theorem integrity_insert {db : DB} {uid : Nat} {rt : String} {exp nowMs : Nat}
    {e : WlEntry} {db1 : DB} (hint : whitelistIntegrity db = true)
    (h : WhitelistService.insertRefreshToken db uid rt exp nowMs = .ok (e, db1)) :
    whitelistIntegrity db1 = true := by
  obtain ⟨-, -, -, hexists, he, hdb⟩ := insertRefreshToken_ok h
  subst hdb
  unfold whitelistIntegrity at hint ⊢
  rw [List.all_eq_true] at hint ⊢
  intro x hx
  simp only [List.mem_append, List.mem_singleton] at hx
  rcases hx with hx | hx
  · exact hint x hx
  · subst hx
    subst he
    simpa [User.userExistByUserId] using hexists

theorem integrity_register {hash : Nat → String → String} {db : DB}
    {fn em pw : String} {u : CreatedUser} {db1 : DB}
    (hint : whitelistIntegrity db = true)
    (h : AuthService.registerUser hash db fn em pw = .ok (u, db1)) :
    whitelistIntegrity db1 = true := by
  obtain ⟨-, -, -, -, -, -, -, hdb⟩ := registerUser_ok h
  subst hdb
  unfold whitelistIntegrity at hint ⊢
  rw [List.all_eq_true] at hint ⊢
  intro x hx
  have hx2 := hint x hx
  rw [List.any_append]
  simp [hx2]

theorem integrity_login {compare : String → String → Bool}
    {sa sr : Nat → String} {nowMs : Nat} {db : DB} {email pw atk rtk : String}
    {db1 : DB} (hint : whitelistIntegrity db = true)
    (h : AuthService.loginUser compare sa sr nowMs db email pw =
      .ok ((atk, rtk), db1)) :
    whitelistIntegrity db1 = true := by
  obtain ⟨u, e, hu, -, -, -, -, he, hdb⟩ := loginUser_ok h
  subst hdb
  have humem : u ∈ db.users := List.mem_of_find?_eq_some hu
  unfold whitelistIntegrity at hint ⊢
  rw [List.all_eq_true] at hint ⊢
  intro x hx
  simp only [List.mem_append, List.mem_singleton] at hx
  rcases hx with hx | hx
  · exact hint x hx
  · subst hx
    subst he
    simp only [List.any_eq_true]
    exact ⟨u, humem, by simp⟩

theorem integrity_logout {db : DB} {uid : Nat} {rt : String}
    {pr : Nat × String} {db1 : DB} (hint : whitelistIntegrity db = true)
    (h : AuthService.logoutUser db uid rt = .ok (pr, db1)) :
    whitelistIntegrity db1 = true := by
  unfold AuthService.logoutUser at h
  split at h
  · simp at h
  · split at h
    · simp at h
    · rename_i db2 heq
      rw [Except.ok.injEq, Prod.mk.injEq] at h
      unfold WhitelistService.checkRefreshTokenExistence at heq
      split at heq
      · rw [Except.ok.injEq] at heq
        refine integrity_of_subset ?_ ?_ hint
        · rw [← h.2, ← heq]
          rfl
        · intro x hx
          rw [← h.2, ← heq] at hx
          unfold Whitelist.delete at hx
          exact List.mem_of_mem_filter hx
      · simp at heq

theorem integrity_update {db : DB} {uid : Nat} {em fn : String}
    {res : Option (Nat × String × String)} {db1 : DB}
    (hint : whitelistIntegrity db = true)
    (h : User.updateUser db uid em fn = (res, db1)) :
    whitelistIntegrity db1 = true := by
  unfold User.updateUser at h
  split at h
  · rw [Prod.mk.injEq] at h
    rw [← h.2]
    unfold whitelistIntegrity at hint ⊢
    rw [List.all_eq_true] at hint ⊢
    intro x hx
    have hx2 := hint x hx
    rw [List.any_map]
    have hids : (fun u : UserRec =>
        (if u.id = uid then { u with email := em, full_name := fn } else u).id
          == x.user_id) = (fun u : UserRec => u.id == x.user_id) := by
      funext u
      split <;> rfl
    rw [show ((fun u : UserRec => u.id == x.user_id) ∘
        (fun u : UserRec => if u.id = uid
          then { u with email := em, full_name := fn } else u)) =
        (fun u : UserRec => u.id == x.user_id) from hids]
    exact hx2
  · rw [Prod.mk.injEq] at h
    rw [← h.2]
    exact hint

/-! ## Concrete fixtures used by witnesses and counterexamples -/

/-- A stand-in for `bcryptjs.hash`: prefix-tagging, plainly distinct from the
plaintext. -/
def hashDemo : Nat → String → String := fun _ pw => String.append "hashed:" pw

/-- The matching stand-in for `bcryptjs.compare`. -/
def compareDemo : String → String → Bool :=
  fun pw stored => stored == String.append "hashed:" pw

/-- A stand-in for `jwt.sign` with the 15-minute policy. -/
def signAccessDemo : Nat → String := fun uid => String.append "acc" (toString uid)

/-- A stand-in for `jwt.sign` with the 7-day policy. -/
def signRefreshDemo : Nat → String := fun uid => String.append "ref" (toString uid)

/-- The database before any request (auto-increment counters at 1). -/
def dbEmpty : DB := { users := [], whitelist := [], nextUserId := 1, nextWlId := 1 }

/-- The user row created by registering Ann (spec §8's concrete scenario). -/
def annRow : UserRec :=
  { id := 1, email := "ann@example.com", full_name := "Ann Lee",
    password := "hashed:longpass1" }

/-- The database after Ann's registration. -/
def dbAnn : DB :=
  { users := [annRow], whitelist := [], nextUserId := 2, nextWlId := 1 }

/-- The database after Ann's registration and login at `nowMs = 0`. -/
def dbAnnLoggedIn : DB :=
  { users := [annRow],
    whitelist := [{ id := 1, user_id := 1, refresh_token := "ref1",
                    expires_at := 633600, created_at := 28800 }],
    nextUserId := 2, nextWlId := 2 }

/-- A whitelist row whose `expires_at` is already far in the past. -/
def expiredEntry : WlEntry :=
  { id := 1, user_id := 1, refresh_token := "tok", expires_at := 5,
    created_at := 1 }

/-- A database holding `expiredEntry` for Ann. -/
def dbExpired : DB :=
  { users := [annRow], whitelist := [expiredEntry], nextUserId := 2,
    nextWlId := 2 }

/-! ## Claim theorems -/

/-- Claim C1: for every (userId, refreshToken) pair inserted by a successful
login, logout succeeds exactly once — the first call finds the whitelist
entry and deletes it, and a second identical call fails with the error the
spec names RefreshTokenNotWhitelisted (source string
`REFRESH_TOKEN_DOES_EXIST_FOR_THIS_USER`), because the existence check then
finds nothing. -/
theorem logout_succeeds_exactly_once_after_login
    (compare : String → String → Bool) (sa sr : Nat → String) (nowMs : Nat)
    (db : DB) (email pw atk rtk : String) (db1 : DB) (u : UserRec)
    (hu : User.userExistByEmail db email = some u)
    (hlogin : AuthService.loginUser compare sa sr nowMs db email pw =
      .ok ((atk, rtk), db1)) :
    ∃ db2, AuthService.logoutUser db1 u.id rtk = .ok ((u.id, rtk), db2) ∧
      AuthService.logoutUser db2 u.id rtk =
        .error .REFRESH_TOKEN_DOES_EXIST_FOR_THIS_USER := by
  obtain ⟨u2, e, hu2, -, -, h0, hne, he, hdb⟩ := loginUser_ok hlogin
  rw [hu] at hu2
  injection hu2 with huu
  subst huu
  have hmem : e ∈ db1.whitelist := by
    rw [hdb]
    simp
  have hex1 : Whitelist.doesRefreshTokenExist db1 u.id rtk = true := by
    simpa [he] using doesRefreshTokenExist_of_mem hmem
  exact ⟨(Whitelist.delete db1 u.id rtk).2,
    logoutUser_found db1 u.id rtk h0 hne hex1,
    logoutUser_notfound _ u.id rtk h0 hne
      (doesRefreshTokenExist_after_delete db1 u.id rtk)⟩

/-- Witness for C1: the concrete register-then-login scenario of spec §8,
with the hypotheses discharged by computation. -/
theorem logout_one_shot_instance :
    ∃ db2, AuthService.logoutUser dbAnnLoggedIn 1 "ref1" = .ok ((1, "ref1"), db2) ∧
      AuthService.logoutUser db2 1 "ref1" =
        .error .REFRESH_TOKEN_DOES_EXIST_FOR_THIS_USER :=
  logout_succeeds_exactly_once_after_login compareDemo signAccessDemo
    signRefreshDemo 0 dbAnn "ann@example.com" "longpass1" "acc1" "ref1"
    dbAnnLoggedIn annRow rfl rfl

/-- Claim C3: the whitelist existence check is an exact-match lookup on the
composite key with no expiry filtering — a stored entry whose `expires_at`
is already in the past still reads as existing, and still satisfies logout's
existence check (`checkRefreshTokenExistence` succeeds on it). -/
theorem exists_check_ignores_expiry (db : DB) (e : WlEntry) (t : Nat)
    (hmem : e ∈ db.whitelist) (hexp : e.expires_at < t) :
    Whitelist.doesRefreshTokenExist db e.user_id e.refresh_token = true ∧
    ∃ db2, WhitelistService.checkRefreshTokenExistence db e.user_id
      e.refresh_token = .ok db2 := by
  have hex := doesRefreshTokenExist_of_mem hmem
  refine ⟨hex, (Whitelist.delete db e.user_id e.refresh_token).2, ?_⟩
  unfold WhitelistService.checkRefreshTokenExistence
  rw [if_pos hex]

/-- Witness for C3: an entry expired long before the observation time `999`
still reads as existing. -/
theorem exists_check_ignores_expiry_instance :
    Whitelist.doesRefreshTokenExist dbExpired 1 "tok" = true ∧
    ∃ db2, WhitelistService.checkRefreshTokenExistence dbExpired 1 "tok" =
      .ok db2 :=
  exists_check_ignores_expiry dbExpired expiredEntry 999 (by decide) (by decide)

/-- Claim C5: the whitelist lookup is scoped to the composite
(user_id, refresh_token) key, not to the token string alone — a token
whitelisted for a different user B but never for A makes `logout(A, token)`
fail with the error the spec names RefreshTokenNotWhitelisted. -/
theorem logout_scoped_to_composite_key (db : DB) (a : Nat) (t : String)
    (e : WlEntry) (hmem : e ∈ db.whitelist) (het : e.refresh_token = t)
    (hne : e.user_id ≠ a)
    (habs : Whitelist.doesRefreshTokenExist db a t = false)
    (ha : a ≠ 0) (ht : t ≠ "") :
    AuthService.logoutUser db a t =
      .error .REFRESH_TOKEN_DOES_EXIST_FOR_THIS_USER :=
  logoutUser_notfound db a t ha ht habs

/-- Witness for C5: the token `"ref1"` whitelisted for user 1 does not let
user 2 log out. -/
theorem logout_scoped_instance :
    AuthService.logoutUser dbAnnLoggedIn 2 "ref1" =
      .error .REFRESH_TOKEN_DOES_EXIST_FOR_THIS_USER :=
  logout_scoped_to_composite_key dbAnnLoggedIn 2 "ref1"
    { id := 1, user_id := 1, refresh_token := "ref1", expires_at := 633600,
      created_at := 28800 }
    (by decide) rfl (by decide) (by decide) (by decide) (by decide)

/-- Claim C10: a falsy `user_id` (0 in the numeric model) is treated as
missing at the public interface: `logoutUser` raises
`LOGOUT_FIELDS_REQUIRED` and `insertRefreshToken` raises
`ALL_FIELDS_REQUIRED` for every other argument value, so neither operation
can be performed for a user whose id is 0. -/
theorem falsy_user_id_treated_as_missing :
    ∀ (db : DB) (rt : String) (exp nowMs : Nat),
      AuthService.logoutUser db 0 rt = .error .LOGOUT_FIELDS_REQUIRED ∧
      WhitelistService.insertRefreshToken db 0 rt exp nowMs =
        .error .ALL_FIELDS_REQUIRED := by
  intro db rt exp nowMs
  constructor
  · unfold AuthService.logoutUser
    rw [if_pos (Or.inr rfl)]
  · unfold WhitelistService.insertRefreshToken
      WhitelistService.validateInsertionData
    rw [if_pos (Or.inl rfl)]

/-- Claim C4: every successful login persists a whitelist entry whose
`expires_at` is `DatetimeUtil.expiryFromDays(7)` — the call time plus exactly
7 days (in the stored encoding, `created_at + 7 * 24 * 60 * 60` seconds).
The refresh-token signer `sr` (and hence the expiry embedded inside the
signed token) is universally quantified and does not occur in the stored
expiry value: the whitelist expiry is computed independently of it. -/
theorem login_whitelists_seven_day_expiry
    (compare : String → String → Bool) (sa sr : Nat → String) (nowMs : Nat)
    (db : DB) (email pw atk rtk : String) (db1 : DB)
    (hlogin : AuthService.loginUser compare sa sr nowMs db email pw =
      .ok ((atk, rtk), db1)) :
    ∃ e, db1.whitelist = db.whitelist ++ [e] ∧ e.refresh_token = rtk ∧
      e.expires_at = DatetimeUtil.expiryFromDays nowMs 7 ∧
      e.created_at = DatetimeUtil.now nowMs ∧
      e.expires_at = e.created_at + 7 * 24 * 60 * 60 := by
  obtain ⟨u, e, -, -, -, -, -, he, hdb⟩ := loginUser_ok hlogin
  subst he
  subst hdb
  exact ⟨_, rfl, rfl, rfl, rfl, expiryFromDays_seven nowMs⟩

/-- Witness for C4: Ann's login at `nowMs = 0` stores
`expires_at = 633600 = 28800 + 604800`. -/
theorem login_expiry_instance :
    ∃ e, dbAnnLoggedIn.whitelist = dbAnn.whitelist ++ [e] ∧
      e.refresh_token = "ref1" ∧
      e.expires_at = DatetimeUtil.expiryFromDays 0 7 ∧
      e.created_at = DatetimeUtil.now 0 ∧
      e.expires_at = e.created_at + 7 * 24 * 60 * 60 :=
  login_whitelists_seven_day_expiry compareDemo signAccessDemo signRefreshDemo
    0 dbAnn "ann@example.com" "longpass1" "acc1" "ref1" dbAnnLoggedIn rfl

/-- Claim C6: `loginUser` runs its steps sequentially with no catch, so when
credential verification and token minting succeed but the whitelist-insert
step fails, the error propagates and no token pair is returned; conversely a
successful return implies the insert completed and produced the returned
state. The insert step is abstracted as `ins` (the concrete
`AuthService.loginUser` instantiates it with
`WhitelistService.insertRefreshToken`). -/
theorem login_propagates_whitelist_insert_failure :
    (∀ (ins : DB → Nat → String → Nat → Except Err DB)
       (compare : String → String → Bool) (sa sr : Nat → String)
       (nowMs : Nat) (db : DB) (email pw : String) (u : UserRec) (er : Err),
      email ≠ "" → pw ≠ "" →
      User.userExistByEmail db email = some u →
      compare pw u.password = true →
      ins db u.id (sr u.id) (DatetimeUtil.expiryFromDays nowMs 7) = .error er →
      AuthService.loginUserWith ins compare sa sr nowMs db email pw =
        .error er) ∧
    (∀ (ins : DB → Nat → String → Nat → Except Err DB)
       (compare : String → String → Bool) (sa sr : Nat → String)
       (nowMs : Nat) (db : DB) (email pw atk rtk : String) (db1 : DB),
      AuthService.loginUserWith ins compare sa sr nowMs db email pw =
        .ok ((atk, rtk), db1) →
      ∃ u, User.userExistByEmail db email = some u ∧
        ins db u.id (sr u.id) (DatetimeUtil.expiryFromDays nowMs 7) =
          .ok db1) := by
  constructor
  · intro ins compare sa sr nowMs db email pw u er he hp hu hcmp hins
    simp [AuthService.loginUserWith, he, hp, hu, hcmp, hins]
  · intro ins compare sa sr nowMs db email pw atk rtk db1 h
    obtain ⟨-, -, u, hu, -, -, -, hins⟩ := loginUserWith_ok h
    exact ⟨u, hu, hins⟩

/-- Demonstration instance for C6: a storage layer that always raises makes
the otherwise-successful login surface exactly that error. -/
theorem login_insert_failure_instance :
    AuthService.loginUserWith (fun _ _ _ _ => .error (.STORAGE_FAILURE "disk"))
      compareDemo signAccessDemo signRefreshDemo 0 dbAnn "ann@example.com"
      "longpass1" = .error (.STORAGE_FAILURE "disk") :=
  login_propagates_whitelist_insert_failure.1 _ compareDemo signAccessDemo
    signRefreshDemo 0 dbAnn "ann@example.com" "longpass1" annRow _
    (by decide) (by decide) rfl rfl rfl

/-- Claim C7: a login whose email matches no user and a login whose email
matches but whose password fails the hash comparison both yield the single
error `INVALID_CREDENTIALS`, so a caller cannot tell which part was wrong. -/
theorem invalid_credentials_indistinguishable
    (compare : String → String → Bool) (sa sr : Nat → String) (nowMs : Nat)
    (db : DB) (email pw : String) (he : email ≠ "") (hp : pw ≠ "")
    (h : User.userExistByEmail db email = none ∨
      ∃ u, User.userExistByEmail db email = some u ∧
        compare pw u.password = false) :
    AuthService.loginUser compare sa sr nowMs db email pw =
      .error .INVALID_CREDENTIALS := by
  unfold AuthService.loginUser AuthService.loginUserWith
  rw [if_neg (by simp [he, hp])]
  rcases h with h | ⟨u, hu, hcmp⟩
  · rw [h]
  · simp [hu, hcmp]

/-- Witness for C7: a login against the empty store (nonexistent email) hits
exactly `INVALID_CREDENTIALS`; the wrong-password branch is exercised by the
same theorem through its right disjunct. -/
theorem invalid_credentials_instance :
    AuthService.loginUser compareDemo signAccessDemo signRefreshDemo 0 dbEmpty
      "x@y.z" "password1" = .error .INVALID_CREDENTIALS :=
  invalid_credentials_indistinguishable compareDemo signAccessDemo
    signRefreshDemo 0 dbEmpty "x@y.z" "password1" (by decide) (by decide)
    (Or.inl rfl)

/-- Claim C8: `registerUser` validates in the fixed order blank fields →
email shape → password length → email uniqueness, and in particular (third
conjunct, where the store `db` is universally quantified and so may already
contain the email) a password shorter than 8 characters combined with an
already-registered email fails with `PASSWORD_TOO_SHORT`, not
`EMAIL_EXISTS`. -/
theorem register_validation_order :
    (∀ (hash : Nat → String → String) (db : DB) (fn em pw : String),
      (isBlank fn = true ∨ isBlank em = true ∨ isBlank pw = true) →
      AuthService.registerUser hash db fn em pw =
        .error .ALL_FIELDS_REQUIRED) ∧
    (∀ (hash : Nat → String → String) (db : DB) (fn em pw : String),
      isBlank fn = false → isBlank em = false → isBlank pw = false →
      emailFormatValid em = false →
      AuthService.registerUser hash db fn em pw =
        .error .INVALID_EMAIL_FORMAT) ∧
    (∀ (hash : Nat → String → String) (db : DB) (fn em pw : String),
      isBlank fn = false → isBlank em = false → isBlank pw = false →
      emailFormatValid em = true → pw.length < 8 →
      AuthService.registerUser hash db fn em pw =
        .error .PASSWORD_TOO_SHORT) ∧
    (∀ (hash : Nat → String → String) (db : DB) (fn em pw : String),
      isBlank fn = false → isBlank em = false → isBlank pw = false →
      emailFormatValid em = true → 8 ≤ pw.length →
      User.emailExists db em = true →
      AuthService.registerUser hash db fn em pw = .error .EMAIL_EXISTS) := by
  refine ⟨?_, ?_, ?_, ?_⟩
  · intro hash db fn em pw h
    unfold AuthService.registerUser AuthService.validateRegistrationData
    rw [if_pos h]
  · intro hash db fn em pw h1 h2 h3 h4
    unfold AuthService.registerUser AuthService.validateRegistrationData
    rw [if_neg (by simp [h1, h2, h3]), if_pos h4]
  · intro hash db fn em pw h1 h2 h3 h4 h5
    unfold AuthService.registerUser AuthService.validateRegistrationData
    rw [if_neg (by simp [h1, h2, h3]), if_neg (by simp [h4]), if_pos h5]
  · intro hash db fn em pw h1 h2 h3 h4 h5 h6
    have hval : AuthService.validateRegistrationData fn em pw = .ok () := by
      unfold AuthService.validateRegistrationData
      rw [if_neg (by simp [h1, h2, h3]), if_neg (by simp [h4]),
        if_neg (by simp [Nat.not_lt, h5])]
    unfold AuthService.registerUser
    rw [hval]
    simp [h6]

/-- Instances for C8: each validation stage hit at a concrete input; the
third and fourth show `PASSWORD_TOO_SHORT` beating `EMAIL_EXISTS` on a store
that already holds the email. -/
theorem register_validation_order_instances :
    AuthService.registerUser hashDemo dbAnn " " "ann@example.com" "longpass1" =
      .error .ALL_FIELDS_REQUIRED ∧
    AuthService.registerUser hashDemo dbAnn "Bob" "not-an-email" "longpass1" =
      .error .INVALID_EMAIL_FORMAT ∧
    AuthService.registerUser hashDemo dbAnn "Bob" "ann@example.com" "short1" =
      .error .PASSWORD_TOO_SHORT ∧
    User.emailExists dbAnn "ann@example.com" = true ∧
    AuthService.registerUser hashDemo dbAnn "Bob" "ann@example.com"
      "longpass2" = .error .EMAIL_EXISTS :=
  ⟨register_validation_order.1 hashDemo dbAnn " " "ann@example.com"
      "longpass1" (Or.inl (by decide)),
   register_validation_order.2.1 hashDemo dbAnn "Bob" "not-an-email"
      "longpass1" (by decide) (by decide) (by decide) (by decide),
   register_validation_order.2.2.1 hashDemo dbAnn "Bob" "ann@example.com"
      "short1" (by decide) (by decide) (by decide) (by decide) (by decide),
   rfl,
   register_validation_order.2.2.2 hashDemo dbAnn "Bob" "ann@example.com"
      "longpass2" (by decide) (by decide) (by decide) (by decide) (by decide)
      rfl⟩

/-- Claim C9: a successful registration stores exactly one new user row,
whose password column holds `hash saltRounds pw` (the bcrypt-family digest at
work factor `saltRounds = 12`) and, whenever the digest differs from the
plaintext, not the plaintext; the value returned to the caller is a
`CreatedUser` — a record with id, full name and email fields and no password
field at all. -/
theorem register_stores_hash_not_plaintext
    (hash : Nat → String → String) (db : DB) (fn em pw : String)
    (u : CreatedUser) (db1 : DB)
    (hreg : AuthService.registerUser hash db fn em pw = .ok (u, db1)) :
    ∃ row : UserRec, db1.users = db.users ++ [row] ∧
      row.password = hash saltRounds pw ∧ saltRounds = 12 ∧
      (hash saltRounds pw ≠ pw → row.password ≠ pw) ∧
      u = { id := row.id, full_name := row.full_name, email := row.email } ∧
      row.full_name = fn ∧ row.email = em := by
  obtain ⟨-, -, -, -, -, -, hu, hdb⟩ := registerUser_ok hreg
  subst hu
  subst hdb
  exact ⟨_, rfl, rfl, rfl, fun hne => hne, rfl, rfl, rfl⟩

/-- Witness for C9: Ann's registration stores the tagged digest, never
`"longpass1"`, and returns a password-free record. -/
theorem register_stores_hash_instance :
    ∃ row : UserRec, dbAnn.users = dbEmpty.users ++ [row] ∧
      row.password = hashDemo saltRounds "longpass1" ∧ saltRounds = 12 ∧
      (hashDemo saltRounds "longpass1" ≠ "longpass1" →
        row.password ≠ "longpass1") ∧
      ({ id := 1, full_name := "Ann Lee", email := "ann@example.com" }
        : CreatedUser) =
        { id := row.id, full_name := row.full_name, email := row.email } ∧
      row.full_name = "Ann Lee" ∧ row.email = "ann@example.com" :=
  register_stores_hash_not_plaintext hashDemo dbEmpty "Ann Lee"
    "ann@example.com" "longpass1"
    { id := 1, full_name := "Ann Lee", email := "ann@example.com" } dbAnn rfl

/-- Counterexample to claim C2 as stated: the reachable sequence register →
login → deleteUser leaves a `jwt_whitelist` row whose user_id (1) has no
matching user row — `User.deleteUser` runs `DELETE FROM user WHERE id = ?`
and never touches `jwt_whitelist`. -/
theorem deleteUser_strands_whitelist_row :
    AuthService.registerUser hashDemo dbEmpty "Ann Lee" "ann@example.com"
      "longpass1" =
      .ok ({ id := 1, full_name := "Ann Lee", email := "ann@example.com" },
        dbAnn) ∧
    AuthService.loginUser compareDemo signAccessDemo signRefreshDemo 0 dbAnn
      "ann@example.com" "longpass1" = .ok (("acc1", "ref1"), dbAnnLoggedIn) ∧
    whitelistIntegrity dbAnnLoggedIn = true ∧
    (User.deleteUser dbAnnLoggedIn 1).1 = some true ∧
    whitelistIntegrity (User.deleteUser dbAnnLoggedIn 1).2 = false ∧
    (User.deleteUser dbAnnLoggedIn 1).2.whitelist ≠ [] :=
  ⟨rfl, rfl, rfl, rfl, rfl, by decide⟩

/-- Claim C2, amended: `insertRefreshToken` rejects a user_id with no
Credential Store record, and registration, login, logout, whitelist insert
and user update all preserve the invariant that every whitelist row's
user_id has a matching user row; user deletion, however, does not (see the
counterexample), so the invariant holds for every reachable sequence of
operations that does not delete a user. -/
theorem whitelist_integrity_except_user_deletion :
    (∀ (db : DB) (uid : Nat) (rt : String) (exp nowMs : Nat),
      uid ≠ 0 → rt ≠ "" → exp ≠ 0 →
      User.userExistByUserId db uid = false →
      WhitelistService.insertRefreshToken db uid rt exp nowMs =
        .error .USER_ID_DOES_NOT_BELONG_TO_ANY_ACCOUNT) ∧
    (∀ (hash : Nat → String → String) (db : DB) (fn em pw : String)
       (u : CreatedUser) (db1 : DB), whitelistIntegrity db = true →
      AuthService.registerUser hash db fn em pw = .ok (u, db1) →
      whitelistIntegrity db1 = true) ∧
    (∀ (compare : String → String → Bool) (sa sr : Nat → String)
       (nowMs : Nat) (db : DB) (email pw atk rtk : String) (db1 : DB),
      whitelistIntegrity db = true →
      AuthService.loginUser compare sa sr nowMs db email pw =
        .ok ((atk, rtk), db1) →
      whitelistIntegrity db1 = true) ∧
    (∀ (db : DB) (uid : Nat) (rt : String) (pr : Nat × String) (db1 : DB),
      whitelistIntegrity db = true →
      AuthService.logoutUser db uid rt = .ok (pr, db1) →
      whitelistIntegrity db1 = true) ∧
    (∀ (db : DB) (uid : Nat) (rt : String) (exp nowMs : Nat) (e : WlEntry)
       (db1 : DB), whitelistIntegrity db = true →
      WhitelistService.insertRefreshToken db uid rt exp nowMs = .ok (e, db1) →
      whitelistIntegrity db1 = true) ∧
    (∀ (db : DB) (uid : Nat) (em fn : String)
       (res : Option (Nat × String × String)) (db1 : DB),
      whitelistIntegrity db = true →
      User.updateUser db uid em fn = (res, db1) →
      whitelistIntegrity db1 = true) := by
  refine ⟨?_, ?_, ?_, ?_, ?_, ?_⟩
  · intro db uid rt exp nowMs h0 hrt hexp hnex
    have hval : WhitelistService.validateInsertionData uid rt exp = .ok () := by
      unfold WhitelistService.validateInsertionData
      rw [if_neg (by simp [h0, hrt, hexp])]
    unfold WhitelistService.insertRefreshToken
    rw [hval]
    simp [hnex]
  · intro hash db fn em pw u db1 hint h
    exact integrity_register hint h
  · intro compare sa sr nowMs db email pw atk rtk db1 hint h
    exact integrity_login hint h
  · intro db uid rt pr db1 hint h
    exact integrity_logout hint h
  · intro db uid rt exp nowMs e db1 hint h
    exact integrity_insert hint h
  · intro db uid em fn res db1 hint h
    exact integrity_update hint h

end JwtAuth
